import Mathlib

/-!
PayWithSablier: stream parameter computation and validation.

A shallow embedding of `packages/frontend/src/pages/PayWithSablier/index.js`.

Conventions of the embedding:

* JavaScript numbers and `BigNumber` values are exact rationals. A value of type
  `Option ℚ` is a number that may fail to be finite: for the draft fields
  `payment` and `deposit`, `none` is `null`, respectively `NaN`; for `BigNumber`
  results, `none` is a non-finite value (`NaN` or an infinity), which every
  arithmetic step of the page passes on.
* A dayjs instant is its millisecond timestamp; wall-clock fields are read in a
  zone with a fixed offset, taken to be UTC.
* `t(key)` is represented by the reason code of its key; translations are taken
  to be non-empty strings, so a returned message is truthy.
* Strings are lists of code points; `length` counts UTF-16 code units.
-/

namespace PayWithSablier

/-! ## dayjs -/

/-- A dayjs instant, as milliseconds since the epoch. -/
structure DayJs where
  ms : Int
deriving DecidableEq, Repr

namespace DayJs

/-- The method `unix()`: whole seconds since the epoch. -/
def unix (t : DayJs) : Int := t.ms / 1000

/-- The getter `hour()`. -/
def hour (t : DayJs) : Int := t.ms / 3600000 % 24

/-- The getter `minute()`. -/
def minute (t : DayJs) : Int := t.ms / 60000 % 60

/-- The setter `hour(h)`: same date, minute, second and millisecond, hour `h`. -/
def setHour (t : DayJs) (h : Int) : DayJs := ⟨t.ms + (h - t.hour) * 3600000⟩

/-- The setter `minute(m)`: same date, hour, second and millisecond, minute `m`. -/
def setMinute (t : DayJs) (m : Int) : DayJs := ⟨t.ms + (m - t.minute) * 60000⟩

/-- The call `subtract(n, "second")`. -/
def subtractSeconds (t : DayJs) (n : Int) : DayJs := ⟨t.ms - n * 1000⟩

/-- The call `a.isBefore(b)`. -/
def isBefore (a b : DayJs) : Bool := decide (a.ms < b.ms)

end DayJs

/-- The helper `isDayJs` of `helpers/time-utils`, on a field that is either
`undefined` or a dayjs instant. -/
def isDayJs (t : Option DayJs) : Bool := t.isSome

/-! ## Numbers -/

/-- Modelled from the spec: `roundToDecimalPoints` of `helpers/format-utils` is
missing from the sources; section 4.3 gives its policy, round half up to the
given number of decimal places. -/
def roundToDecimalPoints (x : ℚ) (n : Nat) : ℚ := (⌊x * 10 ^ n + 1 / 2⌋ : ℤ) / 10 ^ n

/-- Rounding to a whole number, ties away from zero: `toFixed(0)` of a
`BigNumber` under its default rounding mode, and of a JavaScript number. -/
def roundHalfAway (q : ℚ) : ℤ := if 0 ≤ q then ⌊q + 1 / 2⌋ else -⌊-q + 1 / 2⌋

/-- The method `toFixed(0)`, read back as a number. -/
def toFixed0 (x : Option ℚ) : Option ℤ := x.map roundHalfAway

/-- The method `plus` of `BigNumber`. -/
def bnPlus (a b : Option ℚ) : Option ℚ :=
  match a, b with
  | some x, some y => some (x + y)
  | _, _ => none

/-- The method `multipliedBy` of `BigNumber`. -/
def bnTimes (a b : Option ℚ) : Option ℚ :=
  match a, b with
  | some x, some y => some (x * y)
  | _, _ => none

/-- The method `dividedBy` of `BigNumber`; a zero divisor gives a non-finite
value. The quotient is exact: the rounding of quotients to the `DECIMAL_PLACES`
of the library is not modelled. -/
def bnDividedBy (a b : Option ℚ) : Option ℚ :=
  match a, b with
  | some x, some y => if y = 0 then none else some (x / y)
  | _, _ => none

/-- The method `isGreaterThan` of `BigNumber` (false when either side is
`NaN`). -/
def bnIsGreaterThan (a b : Option ℚ) : Bool :=
  match a, b with
  | some x, some y => decide (y < x)
  | _, _ => false

/-! ## The draft, the props and the imported constants -/

/-- The component state (`initialState`, lines 32-47). -/
structure State where
  deposit : Option ℚ
  duration : ℚ
  interval : String
  minTime : Option DayJs
  payment : Option ℚ
  paymentLabel : String
  recipient : String
  tokenAddress : String
  tokenSymbol : Option String
  showTokenApprovalModal : Bool
  startTime : Option DayJs
  stopTime : Option DayJs
  submitted : Bool
  submissionError : String
deriving DecidableEq

/-- An entry of the balance and approval watchers: `{ decimals, value }`. -/
structure Balance where
  decimals : Nat
  value : ℚ
deriving DecidableEq

/-- The prop `block`: the latest observed block. -/
structure Block where
  number : ℚ
  timestamp : DayJs
deriving DecidableEq

/-- The props the logic reads. `isAddress` is `web3.utils.isAddress`,
`getApprovals` is `selectors().getApprovals`; both are external. -/
structure Props where
  account : Option String
  balances : Option (String → Option (String → Option Balance))
  block : Option Block
  isConnected : Bool
  sablierAddress : Option String
  tokenAddresses : List (String × String)
  tokenAddressesToSymbols : String → Option String
  getApprovals : String → Option String → Option String → Balance
  isAddress : String → Bool

/-- The constants and helpers the page imports from `constants/addresses`,
`constants/time` and `helpers/time-utils`, none of which is among the sources:
they are parameters. `INTERVAL_MINUTES` maps an interval to its positive number
of minutes, `INTERVALS` lists the keys of the object of that name, and
`getMinutesForInterval` returns a `BigNumber` (`none` when it is `NaN`). -/
structure Deps where
  ACCEPTED_TOKENS : List String
  DEFAULT_TOKEN_SYMBOL : String
  MAINNET_BLOCK_TIME_AVERAGE : ℚ
  INTERVAL_MINUTES : String → Option {n : Nat // 0 < n}
  INTERVALS : List String
  getMinutesForInterval : String → Option ℚ
  isIntervalShorterThanADay : String → Bool
  getMinStartTime : DayJs

/-- The object `initialState` (lines 32-47). -/
def initialState (d : Deps) : State where
  deposit := some 0
  duration := 0
  interval := ""
  minTime := none
  payment := none
  paymentLabel := ""
  recipient := ""
  tokenAddress := ""
  tokenSymbol := some d.DEFAULT_TOKEN_SYMBOL
  showTokenApprovalModal := false
  startTime := none
  stopTime := none
  submitted := false
  submissionError := ""

/-- Truthiness of a number that may be `null` or `NaN`: neither of those, nor
zero. -/
def truthy (x : Option ℚ) : Bool :=
  match x with
  | some q => decide (q ≠ 0)
  | none => false

/-! ## Duration and deposit -/

/-- The method `recalcState` (lines 256-280). The result is `none` when the
method throws, which it does when `stopTime` is set and `startTime` is not. -/
def recalcState (d : Deps) (s : State) : Option State :=
  match s.stopTime with
  | none =>
    some { s with deposit := some 0, duration := 0 }
  | some previousStopTime =>
    match s.startTime with
    | none => none
    | some startTime =>
      let stopTime :=
        if d.isIntervalShorterThanADay s.interval then previousStopTime
        else (previousStopTime.setHour startTime.hour).setMinute startTime.minute
      let duration : ℚ := max (((stopTime.unix - startTime.unix : ℤ) : ℚ) / 60) 0
      let deposit : Option ℚ :=
        if s.interval ≠ "" ∧ truthy s.payment = true ∧ s.tokenAddress ≠ "" then
          match d.INTERVAL_MINUTES s.interval, s.payment with
          | some minutes, some payment =>
            some (roundToDecimalPoints (duration / (minutes.val : ℚ) * max payment 0) 3)
          | _, _ => none
        else some 0
      some { s with deposit := deposit, duration := duration, stopTime := some stopTime }

/-! ## Strings -/

/-- The call `s.replace(pat, "")` with a string pattern: the first occurrence
of `pat` is removed. -/
def replaceFirst (pat : List Char) : List Char → List Char
  | [] => []
  | c :: cs => if pat.isPrefixOf (c :: cs) then (c :: cs).drop pat.length
               else c :: replaceFirst pat cs

/-- The call `s.split(sep)` for a one-character separator. -/
def split (sep : Char) : List Char → List (List Char)
  | [] => [[]]
  | c :: cs =>
    if c = sep then [] :: split sep cs
    else match split sep cs with
      | [] => [[c]]
      | part :: parts => (c :: part) :: parts

/-- The property `length` of a string: its number of UTF-16 code units. -/
def jsLength (cs : List Char) : Nat :=
  (cs.map fun c => if c.toNat < 65536 then 1 else 2).sum

/-- White space and line terminators, which the conversion of a string to a
number strips at both ends. -/
def isStrWhiteSpace (c : Char) : Bool :=
  c.toNat ∈ [9, 10, 11, 12, 13, 32, 160, 5760, 8232, 8233, 8239, 8287, 12288, 65279]
    || (8192 ≤ c.toNat && c.toNat ≤ 8202)

/-- The value of a run of decimal digits. -/
def digitsValue (ds : List Char) : Nat :=
  ds.foldl (fun n c => 10 * n + (c.toNat - 48)) 0

/-- The exponent part of a decimal literal, from the character after the
digits to the end of the string: nothing, or `e` or `E`, an optional sign and
at least one digit. The result is `none` when the text is no exponent part. -/
def exponentPart (cs : List Char) : Option Int :=
  match cs with
  | [] => some 0
  | c :: rest =>
    if c = 'e' ∨ c = 'E' then
      match rest with
      | '+' :: ds => if ds ≠ [] ∧ ds.all Char.isDigit then some (digitsValue ds) else none
      | '-' :: ds => if ds ≠ [] ∧ ds.all Char.isDigit then some (-(digitsValue ds : Int)) else none
      | ds => if ds ≠ [] ∧ ds.all Char.isDigit then some (digitsValue ds) else none
    else none

/-- The test `str % 1 === 0` on a string: the string converts to a finite
number without fractional part. The conversion is that of decimal literals
(white space trimmed, the empty string is zero, optional sign, digits with an
optional fraction and exponent); `Infinity` converts to a value whose remainder
is `NaN`, and every other text to `NaN`. Hexadecimal, octal and binary literals
are left out: the page applies the test only to strings that start with
`0.0`. -/
def isWholeNumber (str : List Char) : Bool :=
  let trimmed := ((str.dropWhile isStrWhiteSpace).reverse.dropWhile isStrWhiteSpace).reverse
  if trimmed = [] then true
  else
    let unsigned := match trimmed with
      | '+' :: cs => cs
      | '-' :: cs => cs
      | cs => cs
    let intDigits := unsigned.takeWhile Char.isDigit
    let afterInt := unsigned.dropWhile Char.isDigit
    let fracDigits := match afterInt with
      | '.' :: cs => cs.takeWhile Char.isDigit
      | _ => []
    let afterFrac := match afterInt with
      | '.' :: cs => cs.dropWhile Char.isDigit
      | cs => cs
    if intDigits = [] ∧ fracDigits = [] then false
    else
      match exponentPart afterFrac with
      | none => false
      | some e =>
        -- the value is `digits * 10 ^ (e - number of fraction digits)`
        let digits := digitsValue (intDigits ++ fracDigits)
        let shift : Int := e - fracDigits.length
        if 0 ≤ shift then true else decide (10 ^ shift.natAbs ∣ digits)

/-! ## Validators -/

/-- The messages `t("errors. ...")` the validators and the submission return,
by key. -/
inductive Reason where
  | tokenNotAccepted
  | paymentZero
  | paymentDecimals
  | paymentInsufficientBalance (balance : ℚ) (tokenSymbol : Option String)
  | paymentInvalid
  | intervalInvalid
  | stopTimeInvalid
  | stopTimeLowerThanStartTime
  | durationLowerThanInterval
  | recipientInvalid
  | recipientSelf
deriving DecidableEq

/-- A property key made of a prop that may be `undefined`. -/
def keyOf (k : Option String) : String := k.getD "undefined"

/-- The lookup `balances && balances[tokenAddress] && balances[tokenAddress][account]`. -/
def balanceOf (p : Props) (tokenAddress : String) : Option Balance :=
  match p.balances with
  | none => none
  | some byToken =>
    match byToken tokenAddress with
    | none => none
    | some byAccount => byAccount (keyOf p.account)

/-- The method `isTokenInvalid` (lines 310-319). -/
def isTokenInvalid (d : Deps) (s : State) : Option Reason :=
  match s.tokenSymbol with
  | some symbol => if symbol ∈ d.ACCEPTED_TOKENS then none else some .tokenNotAccepted
  | none => some .tokenNotAccepted

/-- The string `paymentStr` of `isPaymentInvalid` (line 355): the label without
its first blank and without the first occurrence of the token symbol. -/
def paymentStr (s : State) : List Char :=
  replaceFirst (keyOf s.tokenSymbol).toList (replaceFirst [' '] s.paymentLabel.toList)

/-- The format rules of `isPaymentInvalid` (lines 356-370). -/
def paymentFormatError (s : State) : Option Reason :=
  let parts := split '.' (paymentStr s)
  if parts.length < 2 then
    match s.payment with
    | some payment => if payment < 0 then some .paymentZero else none
    | none => none
  else if [ '0', '.', '0' ].isPrefixOf (paymentStr s) ∧ isWholeNumber (paymentStr s) = true then
    some .paymentZero
  else if 3 < jsLength (parts.getD 1 []) then some .paymentDecimals
  else none

/-- The method `isPaymentInvalid` (lines 351-389). -/
def isPaymentInvalid (p : Props) (s : State) : Option Reason :=
  match paymentFormatError s with
  | some reason => some reason
  | none =>
    let insufficient : Option Reason :=
      match balanceOf p s.tokenAddress with
      | some balance =>
        let depositBN := bnTimes s.deposit (some (10 ^ balance.decimals))
        if bnIsGreaterThan depositBN (some balance.value) then
          some (.paymentInsufficientBalance
            (roundToDecimalPoints (balance.value / 10 ^ balance.decimals) 2) s.tokenSymbol)
        else none
      | none => none
    match insufficient with
    | some reason => some reason
    | none =>
      if s.submitted = true ∧ truthy s.payment = false ∧ s.paymentLabel = "" then
        some .paymentInvalid
      else none

/-- The method `isIntervalInvalid` (lines 391-404). -/
def isIntervalInvalid (d : Deps) (s : State) : Option Reason :=
  if s.submitted = false ∧ s.interval = "" then none
  else if s.interval ∈ d.INTERVALS then none
  else some .intervalInvalid

/-- The method `isTimesInvalid` (lines 452-472). -/
def isTimesInvalid (d : Deps) (s : State) : Option Reason :=
  if s.submitted = true ∧ isDayJs s.stopTime = false then some .stopTimeInvalid
  else
    let stopBeforeStart : Bool :=
      match s.startTime, s.stopTime with
      | some startTime, some stopTime => stopTime.isBefore startTime
      | _, _ => false
    if stopBeforeStart then some .stopTimeLowerThanStartTime
    else
      match d.getMinutesForInterval s.interval with
      | some minutes =>
        if s.duration ≠ 0 ∧ s.duration < minutes then some .durationLowerThanInterval
        else none
      | none => none

/-- The method `isRecipientInvalid` (lines 530-546). -/
def isRecipientInvalid (p : Props) (s : State) : Option Reason :=
  if s.submitted = false ∧ s.recipient = "" then none
  else if p.isAddress s.recipient = false then some .recipientInvalid
  else if p.account = some s.recipient then some .recipientSelf
  else none

/-- The comparison `interval === 0` of line 145: the interval is a string, and
a string is never strictly equal to a number. -/
def strictEqualsZero (_interval : String) : Bool := false

/-- The method `isDepositInvalid` (lines 138-155). -/
def isDepositInvalid (p : Props) (s : State) : Bool :=
  if s.tokenAddress = "" ∨ truthy s.payment = false ∨ strictEqualsZero s.interval = true ∨
      isDayJs s.startTime = false ∨ isDayJs s.stopTime = false ∨
      p.isAddress s.recipient = false ∨ truthy s.deposit = false then
    true
  else false

/-- The method `isUnapproved` (lines 157-172). -/
def isUnapproved (p : Props) (s : State) : Bool :=
  if s.tokenAddress = "" ∨ s.tokenAddress = "ETH" then false
  else
    let approval := p.getApprovals s.tokenAddress p.account p.sablierAddress
    let depositBN := bnTimes s.deposit (some (10 ^ approval.decimals))
    if bnIsGreaterThan (some approval.value) depositBN then false else true

/-! ## Block arithmetic -/

/-- The method `getBlockDeltaForInterval` (lines 105-109). -/
def getBlockDeltaForInterval (d : Deps) (interval : String) : Option ℚ :=
  let minutes := d.getMinutesForInterval interval
  let blockTimeAverageMinutes := bnDividedBy (some d.MAINNET_BLOCK_TIME_AVERAGE) (some 60)
  bnDividedBy minutes blockTimeAverageMinutes

/-- The method `getBlockDeltaFromNow` (lines 111-117), given the prop `block`. -/
def getBlockDeltaFromNow (d : Deps) (block : Block) (time : DayJs) : Option ℤ :=
  let now := block.timestamp.unix
  let delta : ℤ := |(time.subtractSeconds now).unix|
  let deltaInBlocks := bnDividedBy (some (delta : ℚ)) (some d.MAINNET_BLOCK_TIME_AVERAGE)
  toFixed0 (bnPlus (some block.number) deltaInBlocks)

/-- The method `getStartAndStopBlock` (lines 119-131). The result is `none`
when the method throws: the block or one of the two times is `undefined`. -/
def getStartAndStopBlock (d : Deps) (p : Props) (s : State) : Option (Option ℤ × Option ℤ) :=
  match p.block, s.startTime, s.stopTime with
  | some block, some startTime, some stopTime =>
    let startBlock := getBlockDeltaFromNow d block startTime
    let intervalInBlocks := getBlockDeltaForInterval d s.interval
    let intervalCount :=
      bnDividedBy
        (bnDividedBy (some (((stopTime.subtractSeconds startTime.unix).unix : ℤ) : ℚ)) (some 60))
        (d.getMinutesForInterval s.interval)
    let stopBlock :=
      toFixed0 (bnPlus (startBlock.map fun b => (b : ℚ)) (bnTimes intervalInBlocks intervalCount))
    some (startBlock, stopBlock)
  | _, _, _ => none

/-! ## Submission -/

/-- The arguments of the `createStream` call (line 232), in its order. -/
structure StreamArgs where
  account : Option String
  recipient : String
  tokenAddress : String
  startBlock : Option ℤ
  stopBlock : Option ℤ
  adjustedPayment : Option ℤ
  intervalInBlocks : Option ℤ
deriving DecidableEq

/-- The ways `onSubmit` ends: the early return of line 204, the approval branch
of lines 207-210, the `handleError` of lines 212-215, an exception, and the
`createStream` call of lines 231-233. -/
inductive Outcome where
  | rejected
  | needsApproval
  | failed
  | threw
  | sent (args : StreamArgs)
deriving DecidableEq

/-- The method `onSubmit` (lines 192-241), up to the `createStream` call. The
gas price, which the call is sent with, is no argument of `createStream`. -/
def onSubmit (d : Deps) (p : Props) (s : State) : Outcome :=
  if (isTokenInvalid d s).isSome ∨ (isPaymentInvalid p s).isSome ∨
      (isIntervalInvalid d s).isSome ∨ (isTimesInvalid d s).isSome ∨
      (isRecipientInvalid p s).isSome ∨ isDepositInvalid p s = true then
    .rejected
  else if isUnapproved p s then .needsApproval
  else
    match p.balances with
    | none => .failed
    | some byToken =>
      match byToken s.tokenAddress with
      | none => .failed
      | some byAccount =>
        match getStartAndStopBlock d p s with
        | none => .threw
        | some (startBlock, stopBlock) =>
          match byAccount (keyOf p.account) with
          | none => .threw
          | some balance =>
            let adjustedPayment := toFixed0 (bnTimes s.payment (some (10 ^ balance.decimals)))
            let intervalInBlocks := toFixed0 (getBlockDeltaForInterval d s.interval)
            .sent ⟨p.account, s.recipient, s.tokenAddress, startBlock, stopBlock,
              adjustedPayment, intervalInBlocks⟩

namespace Outcome

/-- The state `onSubmit` leaves: `setState({ showTokenApprovalModal: true })`
in the approval branch, the `setState` of `handleError` (lines 133-136) on a
failure, and no change otherwise. -/
def state (s : State) : Outcome → State
  | needsApproval => { s with showTokenApprovalModal := true }
  | failed => { s with submitted := false, submissionError := "Error: errors.default" }
  | _ => s

/-- The parameter tuple handed to the transaction submitter, if any. -/
def call : Outcome → Option StreamArgs
  | sent args => some args
  | _ => none

end Outcome

/-- The method `getDerivedStateFromProps` (lines 73-99), with the object it
returns merged into the previous state. The result is `none` when the method
throws: no entry of `tokenAddresses.addresses` carries the default symbol. A
time that is set is the very object it is compared with, and a time that is
not set differs from the dayjs object that replaces it. The calls of
`watchBalance` and `watchApprovals` dispatch actions and leave the state as it
is. -/
def getDerivedStateFromProps (d : Deps) (nextProps : Props) (prevState : State) :
    Option State :=
  match nextProps.tokenAddresses.find? fun address => decide (address.1 = d.DEFAULT_TOKEN_SYMBOL) with
  | none => none
  | some entry =>
    let defaultTokenAddress := entry.2
    let minTime := prevState.minTime.getD d.getMinStartTime
    let startTime := prevState.startTime.getD minTime
    if nextProps.isConnected = false then some prevState
    else if (defaultTokenAddress ≠ prevState.tokenAddress ∧
          prevState.tokenSymbol = some d.DEFAULT_TOKEN_SYMBOL) ∨
        some minTime ≠ prevState.minTime ∨ some startTime ≠ prevState.startTime then
      some { prevState with
        minTime := some minTime, startTime := some startTime,
        tokenAddress := defaultTokenAddress }
    else some prevState

/-- The method `onChangePayment` (lines 174-176): the `setState`, then the
`recalcState` of its callback. -/
def onChangePayment (d : Deps) (s : State) (value : Option ℚ) (label : String) :
    Option State :=
  recalcState d { s with payment := value, paymentLabel := label }

/-- The method `onChangeState` (lines 178-182), for the one element it is
bound to, the input named `recipient` (lines 569-575). -/
def onChangeState (s : State) (value : String) : State :=
  { s with recipient := value }

/-- The method `onSelectTokenAddress` (lines 184-190), without the two watcher
calls, which leave the state as it is. -/
def onSelectTokenAddress (p : Props) (s : State) (tokenAddress : String) : State :=
  let tokenSymbol := p.tokenAddressesToSymbols tokenAddress
  { s with tokenAddress := tokenAddress, tokenSymbol := tokenSymbol }

/-- The handler `onSelectInterval` of the interval panel (line 445). -/
def onSelectInterval (d : Deps) (s : State) (interval : String) : Option State :=
  recalcState d { s with interval := interval }

/-- The handler `onSelectTime` of the start time (line 509). -/
def onSelectStartTime (d : Deps) (s : State) (startTime : DayJs) : Option State :=
  recalcState d { s with startTime := some startTime }

/-- The handler `onSelectTime` of the stop time (line 521). -/
def onSelectStopTime (d : Deps) (s : State) (stopTime : DayJs) : Option State :=
  recalcState d { s with stopTime := some stopTime }

/-- The events that change the draft: the six field changes, and a render,
before which React calls `getDerivedStateFromProps` with the current props. -/
inductive Event where
  | changePayment (value : Option ℚ) (label : String)
  | selectInterval (interval : String)
  | selectStartTime (startTime : DayJs)
  | selectStopTime (stopTime : DayJs)
  | selectTokenAddress (tokenAddress : String)
  | changeRecipient (value : String)
  | render

/-- The state after one event under the given props; `none` when the handler
throws. -/
def step (d : Deps) (p : Props) (s : State) : Event → Option State
  | .changePayment value label => onChangePayment d s value label
  | .selectInterval interval => onSelectInterval d s interval
  | .selectStartTime startTime => onSelectStartTime d s startTime
  | .selectStopTime stopTime => onSelectStopTime d s stopTime
  | .selectTokenAddress tokenAddress => some (onSelectTokenAddress p s tokenAddress)
  | .changeRecipient value => some (onChangeState s value)
  | .render => getDerivedStateFromProps d p s

/-- The state after a sequence of events, each under the props of its time. -/
def run (d : Deps) (s : State) : List (Props × Event) → Option State
  | [] => some s
  | (p, e) :: rest =>
    match step d p s e with
    | none => none
    | some s2 => run d s2 rest

/-! ## An instance of the parameters -/

/-- The catalogue of section 4.1 of the specification: the hour, the day and
the week, with the week of 10080 minutes. -/
def catalogue (interval : String) : Option {n : Nat // 0 < n} :=
  if interval = "hour" then some ⟨60, by decide⟩
  else if interval = "day" then some ⟨1440, by decide⟩
  else if interval = "week" then some ⟨10080, by decide⟩
  else none

/-- An instance of the imported constants: the token DAI, blocks of fifteen
seconds, and the helpers of section 4.1 read off the catalogue. -/
def exampleDeps : Deps where
  ACCEPTED_TOKENS := ["DAI"]
  DEFAULT_TOKEN_SYMBOL := "DAI"
  MAINNET_BLOCK_TIME_AVERAGE := 15
  INTERVAL_MINUTES := catalogue
  INTERVALS := ["hour", "day", "week"]
  getMinutesForInterval := fun interval => (catalogue interval).map fun m => (m.val : ℚ)
  isIntervalShorterThanADay := fun interval =>
    match catalogue interval with
    | some m => decide (m.val < 1440)
    | none => false
  getMinStartTime := ⟨1600000000000⟩

/-- The part of `web3.utils.isAddress` that needs no checksum: `0x` and forty
lower-case hexadecimal digits. -/
def isLowerHexAddress (a : String) : Bool :=
  match a.toList with
  | '0' :: 'x' :: ds =>
    ds.length = 40 && ds.all fun c => c.isDigit || ('a' ≤ c && c ≤ 'f')
  | _ => false

/-- The sender of the examples. -/
def alice : String := "0x00000000000000000000000000000000000a11ce"

/-- The recipient of the examples. -/
def bob : String := "0x0000000000000000000000000000000000000b0b"

/-- The token of the examples. -/
def dai : String := "0x0000000000000000000000000000000000000da1"

/-- An instance of the props: connected as `alice`, DAI with the given number
of decimals, and the balance and allowance given in smallest units. -/
def exampleProps (decimals : Nat) (balance allowance : ℚ) : Props where
  account := some alice
  balances := some fun token =>
    if token = dai then some fun account => if account = alice then some ⟨decimals, balance⟩ else none
    else none
  block := some ⟨9000000, ⟨1600000000000⟩⟩
  isConnected := true
  sablierAddress := some "0x000000000000000000000000000000000005ab1e"
  tokenAddresses := [("DAI", dai)]
  tokenAddressesToSymbols := fun token => if token = dai then some "DAI" else none
  getApprovals := fun _ _ _ => ⟨decimals, allowance⟩
  isAddress := isLowerHexAddress

/-- A draft of 70 DAI a week over fourteen days, from one hour after the
reference block. -/
def exampleDraft : State where
  deposit := some 140
  duration := 20160
  interval := "week"
  minTime := some ⟨1600003600000⟩
  payment := some 70
  paymentLabel := "70 DAI"
  recipient := bob
  tokenAddress := dai
  tokenSymbol := some "DAI"
  showTokenApprovalModal := false
  startTime := some ⟨1600003600000⟩
  stopTime := some ⟨1601213200000⟩
  submitted := true
  submissionError := ""

/-! ## Auxiliary definitions for the statements -/

/-- The stop time `recalcState` stores for the given times and interval. -/
def realignedStop (d : Deps) (interval : String) (startTime previousStopTime : DayJs) : DayJs :=
  if d.isIntervalShorterThanADay interval then previousStopTime
  else (previousStopTime.setHour startTime.hour).setMinute startTime.minute

/-- The duration `recalcState` stores for the given times and interval. -/
def recalcDuration (d : Deps) (interval : String) (startTime previousStopTime : DayJs) : ℚ :=
  max ((((realignedStop d interval startTime previousStopTime).unix - startTime.unix : ℤ) : ℚ) / 60) 0

/-- The six validators of the submit gate all pass. -/
def validatorsPass (d : Deps) (p : Props) (s : State) : Prop :=
  isTokenInvalid d s = none ∧ isPaymentInvalid p s = none ∧ isIntervalInvalid d s = none ∧
    isTimesInvalid d s = none ∧ isRecipientInvalid p s = none ∧ isDepositInvalid p s = false

/-- The deposit invariant of section 3 of the specification: the deposit is
`round3 (duration / minutes * max payment 0)` when the interval, the payment,
the token and both times are present, and zero when one of them is absent. -/
def depositInvariant (d : Deps) (s : State) : Prop :=
  (∀ (minutes : {n : Nat // 0 < n}) (payment : ℚ),
    s.interval ≠ "" → d.INTERVAL_MINUTES s.interval = some minutes →
    s.payment = some payment → payment ≠ 0 → s.tokenAddress ≠ "" →
    s.startTime ≠ none → s.stopTime ≠ none →
    s.deposit =
      some (roundToDecimalPoints (s.duration / (minutes.val : ℚ) * max payment 0) 3)) ∧
  (s.interval = "" ∨ s.payment = none ∨ s.payment = some 0 ∨ s.tokenAddress = "" ∨
      s.startTime = none ∨ s.stopTime = none →
    s.deposit = some 0)

/-- The token invariant of section 3 of the specification: the symbol of a
draft with a token address is the symbol the directory gives that address. -/
def tokenInvariant (p : Props) (s : State) : Prop :=
  s.tokenAddress ≠ "" → s.tokenSymbol = p.tokenAddressesToSymbols s.tokenAddress

/-! ## Example drafts -/

/-- A draft of 100 DAI a week over fourteen days: a deposit of 200. -/
def approvalDraft : State :=
  { exampleDraft with payment := some 100, paymentLabel := "100 DAI", deposit := some 200 }

/-- A draft of 1 DAI a week over fourteen days: a deposit of 2. -/
def smallDraft : State :=
  { exampleDraft with payment := some 1, paymentLabel := "1 DAI", deposit := some 2 }

/-- A draft of 75 DAI a week over fourteen days: a deposit of 150. -/
def largeDraft : State :=
  { exampleDraft with payment := some 75, paymentLabel := "75 DAI", deposit := some 150 }

/-- A draft of 1.5 DAI a week over fourteen days: a deposit of 3. -/
def fractionalDraft : State :=
  { exampleDraft with payment := some (3 / 2), paymentLabel := "1.5 DAI", deposit := some 3 }

/-- Props whose account is a string that is no address. -/
def strangerProps : Props := { exampleProps 18 0 0 with account := some "0x123" }

/-- A submitted draft whose recipient is that same string. -/
def strangerDraft : State := { exampleDraft with recipient := "0x123" }

/-- A submitted draft whose recipient is the sender. -/
def selfDraft : State := { exampleDraft with recipient := alice }

/-- A second token of the examples. -/
def usdc : String := "0x000000000000000000000000000000000000c01d"

/-- Props with a directory of two tokens, DAI the default, and the given
connection status. -/
def directoryProps (isConnected : Bool) : Props :=
  { exampleProps 18 0 0 with
    isConnected := isConnected
    tokenAddresses := [("DAI", dai), ("USDC", usdc)]
    tokenAddressesToSymbols := fun token =>
      if token = dai then some "DAI" else if token = usdc then some "USDC" else none }

/-- A session that starts before the wallet is connected: the user picks the
interval, the payment and both times, each followed by a render, and then
selects DAI in the token panel. -/
def tokenLastSession : List (Props × Event) :=
  [(directoryProps false, .render),
   (directoryProps false, .selectInterval "week"),
   (directoryProps false, .render),
   (directoryProps false, .changePayment (some 70) "70 DAI"),
   (directoryProps false, .render),
   (directoryProps false, .selectStartTime ⟨1600003600000⟩),
   (directoryProps false, .render),
   (directoryProps false, .selectStopTime ⟨1601213200000⟩),
   (directoryProps false, .render),
   (directoryProps false, .selectTokenAddress dai),
   (directoryProps false, .render)]

/-- The same session, in which the wallet connects instead of the user
selecting a token: the render under the connected props seeds the default
token. -/
def connectLastSession : List (Props × Event) :=
  [(directoryProps false, .render),
   (directoryProps false, .selectInterval "week"),
   (directoryProps false, .render),
   (directoryProps false, .changePayment (some 70) "70 DAI"),
   (directoryProps false, .render),
   (directoryProps false, .selectStartTime ⟨1600003600000⟩),
   (directoryProps false, .render),
   (directoryProps false, .selectStopTime ⟨1601213200000⟩),
   (directoryProps false, .render),
   (directoryProps true, .render)]

/-- The draft both sessions end in but for the times of the second: every
field present, and a deposit of zero. -/
def staleDepositDraft (minTime : Option DayJs) : State :=
  { initialState exampleDeps with
    interval := "week", payment := some 70, paymentLabel := "70 DAI",
    startTime := some ⟨1600003600000⟩, stopTime := some ⟨1601213200000⟩,
    duration := 20160, deposit := some 0, tokenAddress := dai, minTime := minTime }

/-- A session that starts before the wallet is connected: the user selects
USDC in the token panel, and then the wallet connects. -/
def selectThenConnectSession : List (Props × Event) :=
  [(directoryProps false, .render),
   (directoryProps false, .selectTokenAddress usdc),
   (directoryProps false, .render),
   (directoryProps true, .render)]

/-- The draft that session ends in: the address of DAI under the symbol of
USDC. -/
def mismatchedDraft : State :=
  { initialState exampleDeps with
    tokenAddress := dai, tokenSymbol := some "USDC",
    minTime := some exampleDeps.getMinStartTime,
    startTime := some exampleDeps.getMinStartTime }

/-! ## Duration and deposit: properties -/

theorem recalcState_some (d : Deps) (s : State) (start stop : DayJs)
    (hs : s.startTime = some start) (he : s.stopTime = some stop) :
    ∃ s2, recalcState d s = some s2 ∧
      s2.stopTime = some (realignedStop d s.interval start stop) ∧
      s2.duration = recalcDuration d s.interval start stop ∧
      s2.deposit =
        (if s.interval ≠ "" ∧ truthy s.payment = true ∧ s.tokenAddress ≠ "" then
          match d.INTERVAL_MINUTES s.interval, s.payment with
          | some minutes, some payment =>
            some (roundToDecimalPoints
              (recalcDuration d s.interval start stop / (minutes.val : ℚ) * max payment 0) 3)
          | _, _ => none
        else some 0) := by
  simp only [recalcState, hs, he]
  exact ⟨_, rfl, rfl, rfl, rfl⟩

/-- C3. If one of the six validators rejects, `onSubmit` returns at once: it
leaves the state as it is and hands nothing to the transaction submitter. -/
theorem onSubmit_rejected (d : Deps) (p : Props) (s : State)
    (h : (isTokenInvalid d s).isSome ∨ (isPaymentInvalid p s).isSome ∨
      (isIntervalInvalid d s).isSome ∨ (isTimesInvalid d s).isSome ∨
      (isRecipientInvalid p s).isSome ∨ isDepositInvalid p s = true) :
    onSubmit d p s = .rejected ∧ (onSubmit d p s).state s = s ∧
      (onSubmit d p s).call = none := by
  have h1 : onSubmit d p s = .rejected := by
    unfold onSubmit
    rw [if_pos h]
  rw [h1]
  exact ⟨rfl, rfl, rfl⟩

/-- C3 at the initial draft, which the deposit validator rejects. -/
theorem onSubmit_rejected_witness :
    onSubmit exampleDeps (exampleProps 18 0 0) (initialState exampleDeps) = .rejected ∧
      (onSubmit exampleDeps (exampleProps 18 0 0) (initialState exampleDeps)).state
        (initialState exampleDeps) = initialState exampleDeps ∧
      (onSubmit exampleDeps (exampleProps 18 0 0) (initialState exampleDeps)).call = none :=
  onSubmit_rejected exampleDeps (exampleProps 18 0 0) (initialState exampleDeps)
    (Or.inr (Or.inr (Or.inr (Or.inr (Or.inr (by simp [isDepositInvalid, initialState]))))))

theorem onSubmit_of_validatorsPass (d : Deps) (p : Props) (s : State)
    (hv : validatorsPass d p s) :
    onSubmit d p s =
      if isUnapproved p s then .needsApproval
      else
        match p.balances with
        | none => .failed
        | some byToken =>
          match byToken s.tokenAddress with
          | none => .failed
          | some byAccount =>
            match getStartAndStopBlock d p s with
            | none => .threw
            | some (startBlock, stopBlock) =>
              match byAccount (keyOf p.account) with
              | none => .threw
              | some balance =>
                .sent ⟨p.account, s.recipient, s.tokenAddress, startBlock, stopBlock,
                  toFixed0 (bnTimes s.payment (some (10 ^ balance.decimals))),
                  toFixed0 (getBlockDeltaForInterval d s.interval)⟩ := by
  obtain ⟨h1, h2, h3, h4, h5, h6⟩ := hv
  unfold onSubmit
  rw [if_neg (by simp [h1, h2, h3, h4, h5, h6])]

theorem onSubmit_needsApproval_iff_isUnapproved (d : Deps) (p : Props) (s : State)
    (hv : validatorsPass d p s) :
    onSubmit d p s = .needsApproval ↔ isUnapproved p s = true := by
  rw [onSubmit_of_validatorsPass d p s hv]
  constructor
  · intro h
    by_contra hu
    rw [if_neg hu] at h
    revert h
    split
    · simp
    · split
      · simp
      · split
        · simp
        · split <;> simp
  · intro hu
    rw [if_pos hu]

theorem isUnapproved_eth (p : Props) (s : State) (h : s.tokenAddress = "ETH") :
    isUnapproved p s = false := by
  simp [isUnapproved, h]

theorem deposit_of_isDepositInvalid (p : Props) (s : State) (h : isDepositInvalid p s = false) :
    s.tokenAddress ≠ "" ∧ ∃ deposit, s.deposit = some deposit ∧ deposit ≠ 0 := by
  unfold isDepositInvalid at h
  split_ifs at h with hc
  simp only [not_or] at hc
  obtain ⟨ht, -, -, -, -, -, hd⟩ := hc
  refine ⟨ht, ?_⟩
  cases hdep : s.deposit with
  | none => simp [hdep, truthy] at hd
  | some q =>
    refine ⟨q, rfl, ?_⟩
    simpa [hdep, truthy] using hd

/-- C5. For a draft that passes the six validators and whose token is not
`"ETH"`, `onSubmit` takes the approval branch exactly when the allowance is not
strictly greater than `deposit * 10 ^ decimals` (so also when they are equal);
for the token `"ETH"` it never takes it; and the approval branch sets
`showTokenApprovalModal` and hands nothing to the transaction submitter. -/
theorem onSubmit_needsApproval (d : Deps) (p : Props) (s : State) :
    (validatorsPass d p s → s.tokenAddress ≠ "ETH" →
      ∃ deposit, s.deposit = some deposit ∧
        (onSubmit d p s = .needsApproval ↔
          ¬ deposit * 10 ^ (p.getApprovals s.tokenAddress p.account p.sablierAddress).decimals <
            (p.getApprovals s.tokenAddress p.account p.sablierAddress).value)) ∧
    (s.tokenAddress = "ETH" → onSubmit d p s ≠ .needsApproval) ∧
    ((Outcome.needsApproval.state s).showTokenApprovalModal = true ∧
      Outcome.needsApproval.call = none) := by
  refine ⟨?_, ?_, rfl, rfl⟩
  · intro hv heth
    obtain ⟨ht, deposit, hdep, -⟩ := deposit_of_isDepositInvalid p s hv.2.2.2.2.2
    refine ⟨deposit, hdep, ?_⟩
    rw [onSubmit_needsApproval_iff_isUnapproved d p s hv]
    simp [isUnapproved, ht, heth, hdep, bnTimes, bnIsGreaterThan]
  · intro heth h
    have hu := isUnapproved_eth p s heth
    unfold onSubmit at h
    rw [hu] at h
    revert h
    split
    · simp
    · simp only [Bool.false_eq_true, if_false]
      split
      · simp
      · split
        · simp
        · split
          · simp
          · split <;> simp

theorem isTokenInvalid_approvalDraft : isTokenInvalid exampleDeps approvalDraft = none := by
  decide

theorem paymentFormatError_approvalDraft : paymentFormatError approvalDraft = none := by
  have h : split '.' (paymentStr approvalDraft) = [['1', '0', '0']] := by decide
  have hp : approvalDraft.payment = some 100 := rfl
  simp only [paymentFormatError, h, hp]
  norm_num

theorem isPaymentInvalid_approvalDraft :
    isPaymentInvalid (exampleProps 0 1000 50) approvalDraft = none := by
  have h : balanceOf (exampleProps 0 1000 50) approvalDraft.tokenAddress = some ⟨0, 1000⟩ := by
    simp [balanceOf, exampleProps, approvalDraft, exampleDraft, keyOf]
  simp only [isPaymentInvalid, paymentFormatError_approvalDraft, h]
  norm_num [approvalDraft, exampleDraft, bnTimes, bnIsGreaterThan, truthy]

theorem isIntervalInvalid_approvalDraft : isIntervalInvalid exampleDeps approvalDraft = none := by
  decide

theorem isTimesInvalid_approvalDraft : isTimesInvalid exampleDeps approvalDraft = none := by
  have h : exampleDeps.getMinutesForInterval approvalDraft.interval = some 10080 := rfl
  simp only [isTimesInvalid, h]
  norm_num [approvalDraft, exampleDraft, isDayJs, DayJs.isBefore]

theorem isRecipientInvalid_approvalDraft :
    isRecipientInvalid (exampleProps 0 1000 50) approvalDraft = none := by
  decide

theorem isDepositInvalid_approvalDraft :
    isDepositInvalid (exampleProps 0 1000 50) approvalDraft = false := by
  have hb : isLowerHexAddress bob = true := by decide
  simp [isDepositInvalid, approvalDraft, exampleDraft, exampleProps, truthy,
    strictEqualsZero, isDayJs, hb, dai]

theorem validatorsPass_approvalDraft :
    validatorsPass exampleDeps (exampleProps 0 1000 50) approvalDraft :=
  ⟨isTokenInvalid_approvalDraft, isPaymentInvalid_approvalDraft, isIntervalInvalid_approvalDraft,
    isTimesInvalid_approvalDraft, isRecipientInvalid_approvalDraft,
    isDepositInvalid_approvalDraft⟩

/-- C5, the scenario of the specification: an allowance of 50 against a
required 200 smallest units takes the approval branch. -/
theorem onSubmit_needsApproval_witness :
    validatorsPass exampleDeps (exampleProps 0 1000 50) approvalDraft ∧
      onSubmit exampleDeps (exampleProps 0 1000 50) approvalDraft = .needsApproval := by
  refine ⟨validatorsPass_approvalDraft, ?_⟩
  obtain ⟨deposit, hdep, hiff⟩ :=
    (onSubmit_needsApproval exampleDeps (exampleProps 0 1000 50) approvalDraft).1
      validatorsPass_approvalDraft (by decide)
  have h200 : deposit = 200 := by
    have : approvalDraft.deposit = some 200 := rfl
    rw [this] at hdep
    exact (Option.some.inj hdep).symm
  apply hiff.mpr
  rw [h200]
  norm_num [exampleProps]

/-! ## The balance rule of the payment validator -/

theorem isPaymentInvalid_of_format (p : Props) (s : State) (hf : paymentFormatError s = none) :
    isPaymentInvalid p s =
      match (match balanceOf p s.tokenAddress with
        | some balance =>
          if bnIsGreaterThan (bnTimes s.deposit (some (10 ^ balance.decimals)))
              (some balance.value) then
            some (Reason.paymentInsufficientBalance
              (roundToDecimalPoints (balance.value / 10 ^ balance.decimals) 2) s.tokenSymbol)
          else none
        | none => none) with
      | some reason => some reason
      | none =>
        if s.submitted = true ∧ truthy s.payment = false ∧ s.paymentLabel = "" then
          some .paymentInvalid
        else none := by
  unfold isPaymentInvalid
  rw [hf]

theorem bnIsGreaterThan_deposit (deposit : Option ℚ) (balance : Balance) :
    bnIsGreaterThan (bnTimes deposit (some (10 ^ balance.decimals))) (some balance.value) = true ↔
      ∃ q, deposit = some q ∧ balance.value < q * 10 ^ balance.decimals := by
  cases deposit <;> simp [bnTimes, bnIsGreaterThan]

theorem paymentFormatError_smallDraft : paymentFormatError smallDraft = none := by
  have h : split '.' (paymentStr smallDraft) = [['1']] := by decide
  have hp : smallDraft.payment = some 1 := rfl
  simp only [paymentFormatError, h, hp]
  norm_num

/-- C6, counterexample. With a balance of 1234 smallest units at 3 decimals and
a deposit of 2, the label passes the format rules and the draft is rejected for
insufficient balance, but the balance reported is 1.23, not 1234 / 10 ^ 3. -/
theorem isPaymentInvalid_balance_not_exact :
    paymentFormatError smallDraft = none ∧
      balanceOf (exampleProps 3 1234 0) smallDraft.tokenAddress = some ⟨3, 1234⟩ ∧
      isPaymentInvalid (exampleProps 3 1234 0) smallDraft =
        some (.paymentInsufficientBalance (123 / 100) (some "DAI")) ∧
      (123 / 100 : ℚ) ≠ 1234 / 10 ^ 3 := by
  have hb : balanceOf (exampleProps 3 1234 0) smallDraft.tokenAddress = some ⟨3, 1234⟩ := by
    simp [balanceOf, exampleProps, smallDraft, exampleDraft, keyOf]
  refine ⟨paymentFormatError_smallDraft, hb, ?_, by norm_num⟩
  rw [isPaymentInvalid_of_format _ _ paymentFormatError_smallDraft, hb]
  have hd : smallDraft.deposit = some 2 := rfl
  have hsym : smallDraft.tokenSymbol = some "DAI" := rfl
  simp only [hd, hsym, bnTimes, bnIsGreaterThan]
  norm_num [roundToDecimalPoints]

/-- C6, amended. For a draft whose label passes the format rules and a known
balance `{decimals, value}`, `isPaymentInvalid` returns the insufficient-balance
reason exactly when `deposit * 10 ^ decimals > value`, and the balance reported
in it is `value / 10 ^ decimals` rounded to two decimal places; when no balance
is known the validator never returns that reason. -/
theorem isPaymentInvalid_insufficientBalance (p : Props) (s : State)
    (hf : paymentFormatError s = none) :
    (∀ balance, balanceOf p s.tokenAddress = some balance →
      ((∃ shown symbol, isPaymentInvalid p s =
          some (.paymentInsufficientBalance shown symbol)) ↔
        ∃ deposit, s.deposit = some deposit ∧ balance.value < deposit * 10 ^ balance.decimals) ∧
      (∀ shown symbol, isPaymentInvalid p s = some (.paymentInsufficientBalance shown symbol) →
        shown = roundToDecimalPoints (balance.value / 10 ^ balance.decimals) 2 ∧
          symbol = s.tokenSymbol)) ∧
    (balanceOf p s.tokenAddress = none →
      ∀ shown symbol, isPaymentInvalid p s ≠ some (.paymentInsufficientBalance shown symbol)) := by
  rw [isPaymentInvalid_of_format p s hf]
  constructor
  · intro balance hb
    rw [hb]
    dsimp only
    by_cases hg : bnIsGreaterThan (bnTimes s.deposit (some (10 ^ balance.decimals)))
        (some balance.value) = true
    · have hq := (bnIsGreaterThan_deposit s.deposit balance).mp hg
      simp only [hg, if_true]
      refine ⟨⟨fun _ => hq, fun _ => ⟨_, _, rfl⟩⟩, ?_⟩
      intro shown symbol h
      injection h with h
      injection h with h1 h2
      exact ⟨h1.symm, h2.symm⟩
    · have hq := mt (bnIsGreaterThan_deposit s.deposit balance).mpr hg
      rw [if_neg hg]
      constructor
      · constructor
        · rintro ⟨shown, symbol, h⟩
          split_ifs at h
          simp at h
        · intro h
          exact absurd h hq
      · intro shown symbol h
        split_ifs at h
        simp at h
  · intro hb shown symbol h
    rw [hb] at h
    split_ifs at h
    simp at h

theorem paymentFormatError_largeDraft : paymentFormatError largeDraft = none := by
  have h : split '.' (paymentStr largeDraft) = [['7', '5']] := by decide
  have hp : largeDraft.payment = some 75 := rfl
  simp only [paymentFormatError, h, hp]
  norm_num

/-- C6, the scenario of the specification: a balance of 100 units at 18
decimals and a deposit of 150 are rejected for insufficient balance, with a
displayed balance of 100. -/
theorem isPaymentInvalid_insufficientBalance_witness :
    paymentFormatError largeDraft = none ∧
      ∃ symbol, isPaymentInvalid (exampleProps 18 (100 * 10 ^ 18) 0) largeDraft =
        some (.paymentInsufficientBalance 100 symbol) := by
  refine ⟨paymentFormatError_largeDraft, ?_⟩
  have hb : balanceOf (exampleProps 18 (100 * 10 ^ 18) 0) largeDraft.tokenAddress =
      some ⟨18, 100 * 10 ^ 18⟩ := by
    simp [balanceOf, exampleProps, largeDraft, exampleDraft, keyOf]
  obtain ⟨hiff, hshown⟩ :=
    (isPaymentInvalid_insufficientBalance (exampleProps 18 (100 * 10 ^ 18) 0) largeDraft
      paymentFormatError_largeDraft).1 _ hb
  obtain ⟨shown, symbol, h⟩ := hiff.mpr ⟨150, rfl, by norm_num⟩
  obtain ⟨h1, -⟩ := hshown shown symbol h
  refine ⟨symbol, ?_⟩
  rw [h, h1]
  norm_num [roundToDecimalPoints]

/-! ## The arguments of `createStream` -/

theorem payment_of_isDepositInvalid (p : Props) (s : State) (h : isDepositInvalid p s = false) :
    ∃ payment, s.payment = some payment ∧ payment ≠ 0 := by
  unfold isDepositInvalid at h
  split_ifs at h with hc
  simp only [not_or] at hc
  obtain ⟨-, hp, -⟩ := hc
  cases hpay : s.payment with
  | none => simp [hpay, truthy] at hp
  | some q =>
    refine ⟨q, rfl, ?_⟩
    simpa [hpay, truthy] using hp

theorem validatorsPass_of_sent (d : Deps) (p : Props) (s : State) (args : StreamArgs)
    (h : onSubmit d p s = .sent args) : validatorsPass d p s := by
  unfold onSubmit at h
  split_ifs at h with hc
  simpa [validatorsPass, not_or] using hc

theorem paymentFormatError_fractionalDraft : paymentFormatError fractionalDraft = none := by
  decide

theorem validatorsPass_fractionalDraft :
    validatorsPass exampleDeps (exampleProps 0 1000 1000) fractionalDraft := by
  have hb : isLowerHexAddress bob = true := by decide
  refine ⟨by decide, ?_, by decide, ?_, by decide, ?_⟩
  · have h : balanceOf (exampleProps 0 1000 1000) fractionalDraft.tokenAddress =
        some ⟨0, 1000⟩ := by
      simp [balanceOf, exampleProps, fractionalDraft, exampleDraft, keyOf]
    rw [isPaymentInvalid_of_format _ _ paymentFormatError_fractionalDraft, h]
    norm_num [fractionalDraft, exampleDraft, bnTimes, bnIsGreaterThan, truthy]
  · have h : exampleDeps.getMinutesForInterval fractionalDraft.interval = some 10080 := rfl
    simp only [isTimesInvalid, h]
    norm_num [fractionalDraft, exampleDraft, isDayJs, DayJs.isBefore]
  · simp [isDepositInvalid, fractionalDraft, exampleDraft, exampleProps, truthy,
      strictEqualsZero, isDayJs, hb, dai]

theorem getStartAndStopBlock_fractionalDraft :
    getStartAndStopBlock exampleDeps (exampleProps 0 1000 1000) fractionalDraft =
      some (some 9000240, some 9080880) := by
  have h : exampleDeps.getMinutesForInterval fractionalDraft.interval = some 10080 := rfl
  simp only [getStartAndStopBlock, getBlockDeltaFromNow, getBlockDeltaForInterval, h]
  norm_num [exampleProps, exampleDeps, fractionalDraft, exampleDraft, bnDividedBy, bnPlus, bnTimes,
    toFixed0, roundHalfAway, DayJs.unix, DayJs.subtractSeconds]

theorem onSubmit_fractionalDraft :
    onSubmit exampleDeps (exampleProps 0 1000 1000) fractionalDraft =
      .sent ⟨some alice, bob, dai, some 9000240, some 9080880, some 2, some 40320⟩ := by
  rw [onSubmit_of_validatorsPass _ _ _ validatorsPass_fractionalDraft,
    getStartAndStopBlock_fractionalDraft]
  have hu : isUnapproved (exampleProps 0 1000 1000) fractionalDraft = false := by
    norm_num [isUnapproved, exampleProps, fractionalDraft, exampleDraft, bnTimes,
      bnIsGreaterThan, dai]
  have h : exampleDeps.getMinutesForInterval fractionalDraft.interval = some 10080 := rfl
  rw [hu]
  simp only [getBlockDeltaForInterval, h]
  norm_num [exampleProps, exampleDeps, fractionalDraft, exampleDraft, bnDividedBy, bnTimes,
    toFixed0, roundHalfAway, keyOf, alice, dai]

/-- C7, counterexample. For a draft of 1.5 a week with a deposit of 3 and a
token of 0 decimals, `onSubmit` hands over a tuple whose sixth element is 2: the
payment per interval in smallest units, rounded half up. It is neither the
deposit in smallest units, 3, nor a truncation. -/
theorem onSubmit_amount_not_deposit :
    ∃ args, (onSubmit exampleDeps (exampleProps 0 1000 1000) fractionalDraft).call = some args ∧
      fractionalDraft.deposit = some 3 ∧
      balanceOf (exampleProps 0 1000 1000) fractionalDraft.tokenAddress = some ⟨0, 1000⟩ ∧
      args.adjustedPayment = some 2 ∧
      args.adjustedPayment ≠ some ⌊(3 : ℚ) * 10 ^ 0⌋ := by
  rw [onSubmit_fractionalDraft]
  refine ⟨_, rfl, rfl, ?_, rfl, ?_⟩
  · simp [balanceOf, exampleProps, fractionalDraft, exampleDraft, keyOf]
  · norm_num

/-- C7, amended. Whenever `onSubmit` hands a tuple to the transaction
submitter, the tuple is `(account, recipient, tokenAddress, startBlock,
stopBlock, amount, intervalInBlocks)` in that order, with the blocks of
`getStartAndStopBlock`, `intervalInBlocks` the block delta of the interval
rounded to a whole number, and `amount` the payment per interval times
`10 ^ decimals`, rounded to a whole number with ties away from zero. -/
theorem onSubmit_sent_args (d : Deps) (p : Props) (s : State) (args : StreamArgs)
    (h : (onSubmit d p s).call = some args) :
    ∃ startBlock stopBlock balance payment,
      getStartAndStopBlock d p s = some (startBlock, stopBlock) ∧
      balanceOf p s.tokenAddress = some balance ∧
      s.payment = some payment ∧
      args = ⟨p.account, s.recipient, s.tokenAddress, startBlock, stopBlock,
        some (roundHalfAway (payment * 10 ^ balance.decimals)),
        (getBlockDeltaForInterval d s.interval).map roundHalfAway⟩ := by
  have hs : onSubmit d p s = .sent args := by
    cases ho : onSubmit d p s with
    | sent a =>
      rw [ho] at h
      simp only [Outcome.call, Option.some.injEq] at h
      rw [h]
    | rejected => rw [ho] at h; simp [Outcome.call] at h
    | needsApproval => rw [ho] at h; simp [Outcome.call] at h
    | failed => rw [ho] at h; simp [Outcome.call] at h
    | threw => rw [ho] at h; simp [Outcome.call] at h
  have hv := validatorsPass_of_sent d p s args hs
  obtain ⟨payment, hp, -⟩ := payment_of_isDepositInvalid p s hv.2.2.2.2.2
  rw [onSubmit_of_validatorsPass d p s hv] at hs
  split_ifs at hs
  cases hbal : p.balances with
  | none => simp [hbal] at hs
  | some byToken =>
    cases hbt : byToken s.tokenAddress with
    | none => simp [hbal, hbt] at hs
    | some byAccount =>
      cases hblocks : getStartAndStopBlock d p s with
      | none => simp [hbal, hbt, hblocks] at hs
      | some blocks =>
        cases hacc : byAccount (keyOf p.account) with
        | none => simp [hbal, hbt, hblocks, hacc] at hs
        | some balance =>
          simp only [hbal, hbt, hblocks, hacc, Outcome.sent.injEq] at hs
          refine ⟨blocks.1, blocks.2, balance, payment, rfl, ?_, hp, ?_⟩
          · simp [balanceOf, hbal, hbt, hacc]
          · rw [← hs, hp]
            simp [bnTimes, toFixed0]

/-- C7 at the draft of 1.5 DAI a week: the tuple handed over. -/
theorem onSubmit_sent_args_witness :
    ∃ args, (onSubmit exampleDeps (exampleProps 0 1000 1000) fractionalDraft).call = some args ∧
      ∃ startBlock stopBlock balance payment,
        getStartAndStopBlock exampleDeps (exampleProps 0 1000 1000) fractionalDraft =
          some (startBlock, stopBlock) ∧
        balanceOf (exampleProps 0 1000 1000) fractionalDraft.tokenAddress = some balance ∧
        fractionalDraft.payment = some payment ∧
        args = ⟨(exampleProps 0 1000 1000).account, fractionalDraft.recipient,
          fractionalDraft.tokenAddress, startBlock, stopBlock,
          some (roundHalfAway (payment * 10 ^ balance.decimals)),
          (getBlockDeltaForInterval exampleDeps fractionalDraft.interval).map roundHalfAway⟩ := by
  have h : (onSubmit exampleDeps (exampleProps 0 1000 1000) fractionalDraft).call =
      some ⟨some alice, bob, dai, some 9000240, some 9080880, some 2, some 40320⟩ := by
    rw [onSubmit_fractionalDraft]
    rfl
  exact ⟨_, h, onSubmit_sent_args exampleDeps (exampleProps 0 1000 1000) fractionalDraft _ h⟩

/-! ## Realignment of the stop time -/

/-- C10, counterexample. With `submitted` set and a recipient equal to the
sender account, both the string `0x123` that is no address, `isRecipientInvalid`
returns `errors.recipientInvalid`, not `errors.recipientSelf`. -/
theorem isRecipientInvalid_self_not_address :
    strangerDraft.submitted = true ∧ strangerProps.account = some strangerDraft.recipient ∧
      strangerProps.isAddress strangerDraft.recipient = false ∧
      isRecipientInvalid strangerProps strangerDraft = some .recipientInvalid ∧
      isRecipientInvalid strangerProps strangerDraft ≠ some .recipientSelf := by
  decide

/-- C10, amended. For a draft with `submitted` set and a recipient equal to the
sender account, `isRecipientInvalid` returns `errors.recipientSelf` when that
string is a syntactically valid address, and `errors.recipientInvalid` when it
is not. -/
theorem isRecipientInvalid_self (p : Props) (s : State) (hsub : s.submitted = true)
    (hself : p.account = some s.recipient) :
    (p.isAddress s.recipient = true → isRecipientInvalid p s = some .recipientSelf) ∧
      (p.isAddress s.recipient = false → isRecipientInvalid p s = some .recipientInvalid) := by
  constructor
  · intro ha
    simp [isRecipientInvalid, hsub, ha, hself]
  · intro ha
    simp [isRecipientInvalid, hsub, ha]

/-- C10 at a draft whose recipient is the connected account. -/
theorem isRecipientInvalid_self_witness :
    isRecipientInvalid (exampleProps 18 0 0) selfDraft = some .recipientSelf :=
  (isRecipientInvalid_self (exampleProps 18 0 0) selfDraft rfl rfl).1 (by decide)

/-! ## Resubmission -/

theorem directoryProps_find (c : Bool) :
    (directoryProps c).tokenAddresses.find?
      (fun address => decide (address.1 = exampleDeps.DEFAULT_TOKEN_SYMBOL)) =
      some ("DAI", dai) := by
  rfl

theorem getDerivedStateFromProps_disconnected (s : State) :
    getDerivedStateFromProps exampleDeps (directoryProps false) s = some s := by
  unfold getDerivedStateFromProps
  rw [directoryProps_find]
  simp [directoryProps]

theorem recalcState_depositInvariant (d : Deps) (s s2 : State)
    (h : recalcState d s = some s2) : depositInvariant d s2 := by
  cases he : s.stopTime with
  | none =>
    simp only [recalcState, he, Option.some.injEq] at h
    subst h
    constructor
    · intro minutes payment _ _ _ _ _ _ hstop
      exact absurd rfl hstop
    · intro _
      rfl
  | some stop =>
    cases hs : s.startTime with
    | none => simp [recalcState, he, hs] at h
    | some start =>
      obtain ⟨s3, h3, hstop, hdur, hdep⟩ := recalcState_some d s start stop hs he
      rw [h] at h3
      cases h3
      have hfields : s2.interval = s.interval ∧ s2.payment = s.payment ∧
          s2.tokenAddress = s.tokenAddress ∧ s2.startTime = some start := by
        simp only [recalcState, he, hs, Option.some.injEq] at h
        subst h
        exact ⟨rfl, rfl, rfl, rfl⟩
      obtain ⟨hi, hp, ht, hst⟩ := hfields
      rw [depositInvariant, hi, hp, ht, hst, hstop, hdep, hdur]
      constructor
      · intro minutes payment hi0 hm hpay hp0 ht0 _ _
        rw [hm, hpay]
        simp [truthy, hi0, hp0, ht0]
      · intro h0
        rcases h0 with h0 | h0 | h0 | h0 | h0 | h0
        · simp [h0]
        · simp [h0, truthy]
        · simp [h0, truthy]
        · simp [h0]
        · exact absurd h0 (by simp)
        · exact absurd h0 (by simp)

theorem staleDepositDraft_not_depositInvariant (minTime : Option DayJs) :
    ¬ depositInvariant exampleDeps (staleDepositDraft minTime) := by
  intro h
  have h1 := h.1 ⟨10080, by decide⟩ 70 (by simp [staleDepositDraft]) rfl rfl (by norm_num)
    (by simp [staleDepositDraft, dai]) (by simp [staleDepositDraft])
    (by simp [staleDepositDraft])
  have hdep : (staleDepositDraft minTime).deposit = some 0 := rfl
  have hdur : (staleDepositDraft minTime).duration = 20160 := rfl
  rw [hdep, hdur] at h1
  norm_num [roundToDecimalPoints] at h1

/-- C12. From the initial draft, before the wallet is connected, the user
picks a weekly interval, a payment of 70 and two times fourteen days apart, and
then a token; the draft this ends in has every field present and a deposit of
zero, where the invariant asks for 140. The same holds when, instead of the
user selecting the token, the wallet connects and `getDerivedStateFromProps`
seeds the default token. -/
theorem deposit_stale_after_token :
    run exampleDeps (initialState exampleDeps) tokenLastSession =
        some (staleDepositDraft none) ∧
      ¬ depositInvariant exampleDeps (staleDepositDraft none) ∧
      run exampleDeps (initialState exampleDeps) connectLastSession =
        some (staleDepositDraft (some exampleDeps.getMinStartTime)) ∧
      ¬ depositInvariant exampleDeps (staleDepositDraft (some exampleDeps.getMinStartTime)) := by
  have hweek : recalcState exampleDeps { initialState exampleDeps with interval := "week" } =
      some { initialState exampleDeps with interval := "week" } := by
    simp [recalcState, initialState]
  have hpay : recalcState exampleDeps
      { initialState exampleDeps with
        interval := "week", payment := some 70, paymentLabel := "70 DAI" } =
      some { initialState exampleDeps with
        interval := "week", payment := some 70, paymentLabel := "70 DAI" } := by
    simp [recalcState, initialState]
  have hstart : recalcState exampleDeps
      { initialState exampleDeps with
        interval := "week", payment := some 70, paymentLabel := "70 DAI",
        startTime := some ⟨1600003600000⟩ } =
      some { initialState exampleDeps with
        interval := "week", payment := some 70, paymentLabel := "70 DAI",
        startTime := some ⟨1600003600000⟩ } := by
    simp [recalcState, initialState]
  have hstop : recalcState exampleDeps
      { initialState exampleDeps with
        interval := "week", payment := some 70, paymentLabel := "70 DAI",
        startTime := some ⟨1600003600000⟩, stopTime := some ⟨1601213200000⟩ } =
      some { initialState exampleDeps with
        interval := "week", payment := some 70, paymentLabel := "70 DAI",
        startTime := some ⟨1600003600000⟩, stopTime := some ⟨1601213200000⟩,
        duration := 20160 } := by
    have hshort : exampleDeps.isIntervalShorterThanADay "week" = false := by decide
    have hstopTime : (DayJs.setMinute (DayJs.setHour ⟨1601213200000⟩
        (DayJs.hour ⟨1600003600000⟩)) (DayJs.minute ⟨1600003600000⟩)) =
        ⟨1601213200000⟩ := by decide
    simp only [recalcState, initialState, hshort, hstopTime]
    norm_num [DayJs.unix]
  have hfind := directoryProps_find
  have hrender := getDerivedStateFromProps_disconnected
  refine ⟨?_, staleDepositDraft_not_depositInvariant _, ?_,
    staleDepositDraft_not_depositInvariant _⟩
  · simp only [tokenLastSession, run, step, hrender, onSelectInterval, onChangePayment,
      onSelectStartTime, onSelectStopTime, onSelectTokenAddress, hweek, hpay, hstart, hstop]
    simp [staleDepositDraft, initialState, directoryProps, exampleDeps]
  · simp only [connectLastSession, run, step, hrender, onSelectInterval, onChangePayment,
      onSelectStartTime, onSelectStopTime, hweek, hpay, hstart, hstop]
    simp [getDerivedStateFromProps, hfind, staleDepositDraft, initialState, directoryProps,
      exampleProps, exampleDeps, dai]

/-! ## The token invariant under field changes -/

/-- C13. From the initial draft, before the wallet is connected, the user
selects USDC, and the draft carries the address and the symbol of USDC; then
the wallet connects, and `getDerivedStateFromProps`, finding `minTime` unset,
replaces the address by that of DAI and leaves the symbol: the draft carries the
address of DAI under the symbol `USDC`, where the directory gives `DAI`. -/
theorem token_mismatch_after_connect :
    run exampleDeps (initialState exampleDeps) selectThenConnectSession = some mismatchedDraft ∧
      mismatchedDraft.tokenAddress = dai ∧ mismatchedDraft.tokenSymbol = some "USDC" ∧
      (directoryProps true).tokenAddressesToSymbols dai = some "DAI" ∧
      ¬ tokenInvariant (directoryProps true) mismatchedDraft := by
  have hfind := directoryProps_find
  have hrender := getDerivedStateFromProps_disconnected
  have hdir : (directoryProps true).tokenAddressesToSymbols dai = some "DAI" := by decide
  refine ⟨?_, rfl, rfl, hdir, ?_⟩
  · simp only [selectThenConnectSession, run, step, hrender, onSelectTokenAddress]
    have husdc : (directoryProps false).tokenAddressesToSymbols usdc = some "USDC" := by decide
    have hne : usdc ≠ dai := by decide
    simp [getDerivedStateFromProps, hfind, husdc, hne, mismatchedDraft, initialState,
      directoryProps, exampleProps, exampleDeps]
  · intro h
    have h2 := h (by decide)
    have haddr : mismatchedDraft.tokenAddress = dai := rfl
    rw [haddr, hdir] at h2
    exact absurd h2 (by decide)

end PayWithSablier
